import Mathlib

/-!
Verification development for the browser photo-to-3D converter
(main script: createMeshFromDepthMap / validateModelForExport /
optimizeModelForExport / downloadGLB, plus the mesh-replacement logic
in the generate-button listener).

The application code is JavaScript over three.js.  We give a shallow
embedding: rational numbers stand for JS floats (all arithmetic the
claims touch is exact in the source: the relevant values are small
integer-valued expressions), lists stand for buffer attributes, and
the three.js library entry points the script calls (PlaneGeometry,
BufferGeometry.center, computeVertexNormals, computeBoundingBox,
computeBoundingSphere, Mesh.clone, dispose) are modelled faithfully
from the library semantics the script relies on.  Object identity
(which matters because three.js Mesh.clone shares geometry and
material by reference) is modelled with an explicit heap (World)
indexed by natural numbers.

Known, deliberate modelling deviations, none load-bearing for any
theorem below:
  * texture coordinates (the uv attribute of PlaneGeometry) are
    omitted: no claim mentions them;
  * computeVertexNormals accumulates the face cross products per
    vertex but omits the final per-vertex unit normalization (which
    needs a real square root); no theorem inspects normal values;
  * computeBoundingSphere stores the squared radius instead of the
    radius, again to stay inside the rationals;
  * division by zero is 0 in Lean while JS produces Infinity/NaN;
    this only shows up in the planar x/y coordinates of degenerate
    (sub-2-wide) grids, and no theorem reads those coordinates.
-/

namespace Papiweb3D

/-- A 3-component vector, the model of THREE.Vector3 and of one entry
of a position/normal buffer attribute. -/
structure Vec3 where
  x : ℚ
  y : ℚ
  z : ℚ
deriving DecidableEq, Repr

def Vec3.zero : Vec3 := ⟨0, 0, 0⟩

def vsub (a b : Vec3) : Vec3 := ⟨a.x - b.x, a.y - b.y, a.z - b.z⟩

def vadd (a b : Vec3) : Vec3 := ⟨a.x + b.x, a.y + b.y, a.z + b.z⟩

/-- Cross product, as used by THREE.BufferGeometry.computeVertexNormals. -/
def vcross (a b : Vec3) : Vec3 :=
  ⟨a.y * b.z - a.z * b.y, a.z * b.x - a.x * b.z, a.x * b.y - a.y * b.x⟩

/-- Axis-aligned bounding box (model of THREE.Box3 as stored in
BufferGeometry.boundingBox). -/
structure Box3 where
  lo : Vec3
  hi : Vec3
deriving DecidableEq, Repr

/-- Bounding sphere (model of THREE.Sphere); the radius is kept
squared so the value stays rational. -/
structure SphereB where
  center : Vec3
  radiusSq : ℚ
deriving DecidableEq, Repr

/-- Minimum of a list of rationals; empty lists give 0, matching the
three.js convention that Box3.getCenter on an empty box returns the
zero vector (only the empty case of the bounding-box center uses this
default). -/
def listMin : List ℚ → ℚ
  | [] => 0
  | a :: as => as.foldl min a

/-- Maximum of a list of rationals; empty lists give 0 (see listMin). -/
def listMax : List ℚ → ℚ
  | [] => 0
  | a :: as => as.foldl max a

/-- Componentwise minimum corner of the bounding box of a vertex list
(model of THREE.Box3.setFromBufferAttribute). -/
def bboxMin (ps : List Vec3) : Vec3 :=
  ⟨listMin (ps.map Vec3.x), listMin (ps.map Vec3.y), listMin (ps.map Vec3.z)⟩

/-- Componentwise maximum corner, see bboxMin. -/
def bboxMax (ps : List Vec3) : Vec3 :=
  ⟨listMax (ps.map Vec3.x), listMax (ps.map Vec3.y), listMax (ps.map Vec3.z)⟩

/-- Center of the bounding box of a vertex list: the midpoint of the
two corners, as computed by Box3.getCenter. -/
def bboxCenter (ps : List Vec3) : Vec3 :=
  ⟨(listMin (ps.map Vec3.x) + listMax (ps.map Vec3.x)) / 2,
   (listMin (ps.map Vec3.y) + listMax (ps.map Vec3.y)) / 2,
   (listMin (ps.map Vec3.z) + listMax (ps.map Vec3.z)) / 2⟩

/-- The bounding sphere computeBoundingSphere would store for a
vertex list: centered at the bounding-box center, radius the largest
distance from that center to a vertex (kept squared, see SphereB). -/
def sphereOf (ps : List Vec3) : SphereB :=
  let c := bboxCenter ps
  let rs := listMax (ps.map (fun p =>
    let d := vsub p c
    d.x * d.x + d.y * d.y + d.z * d.z))
  ⟨c, rs⟩

/-- Model of THREE.BufferGeometry: a position attribute, a normal
attribute, an optional index buffer and the lazily computed bounding
volumes (null until first computed, hence Option). -/
structure BufferGeometry where
  positions : List Vec3
  normals : List Vec3
  index : Option (List ℕ)
  boundingBox : Option Box3
  boundingSphere : Option SphereB
deriving DecidableEq, Repr

def emptyGeometry : BufferGeometry :=
  { positions := [], normals := [], index := none,
    boundingBox := none, boundingSphere := none }

/-- One row of PlaneGeometry vertices: in the three.js source,
for row iy the loop pushes, for ix in [0, gridX1), the vertex
( ix * segment_width - width_half, - (iy * segment_height - height_half), 0 ).
rowY below is the value iy * segment_height - height_half. -/
def planeRow (width segW rowY : ℚ) (gridX1 : ℕ) : List Vec3 :=
  (List.range gridX1).map (fun ix : ℕ => ⟨(ix : ℚ) * segW - width / 2, -rowY, 0⟩)

/-- All PlaneGeometry vertices, rows concatenated in row-major order. -/
def planePositions (width height segW segH : ℚ) (gridX1 gridY1 : ℕ) : List Vec3 :=
  (List.range gridY1).flatMap
    (fun iy => planeRow width segW ((iy : ℚ) * segH - height / 2) gridX1)

/-- PlaneGeometry index buffer: for each cell (iy, ix) the three.js
source pushes the corners a = ix + gridX1*iy, b = ix + gridX1*(iy+1),
c = (ix+1) + gridX1*(iy+1), d = (ix+1) + gridX1*iy and the two
triangles (a, b, d) and (b, c, d). -/
def planeIndices (gridX gridY gridX1 : ℕ) : List ℕ :=
  (List.range gridY).flatMap (fun iy =>
    (List.range gridX).flatMap (fun ix =>
      let a := ix + gridX1 * iy
      let b := ix + gridX1 * (iy + 1)
      let c := (ix + 1) + gridX1 * (iy + 1)
      let d := (ix + 1) + gridX1 * iy
      [a, b, d, b, c, d]))

/-- Model of new THREE.PlaneGeometry(width, height, wSeg, hSeg).
The segment counts are integers because the script passes width-1 and
height-1, which can reach -1 for a zero-sized depth map; three.js does
not clamp them (gridX1 = floor(wSeg) + 1, and the generation loops
simply run zero times when the counts are non-positive).  The initial
normal of every vertex is (0,0,1); z is 0 until displaced.  The uv
attribute is omitted (no claim concerns it).  bounding volumes start
null. -/
def planeGeometry (width height : ℚ) (wSeg hSeg : ℤ) : BufferGeometry :=
  let gridX : ℤ := wSeg
  let gridY : ℤ := hSeg
  let gridX1 : ℕ := (gridX + 1).toNat
  let gridY1 : ℕ := (gridY + 1).toNat
  let segW : ℚ := width / (gridX : ℚ)
  let segH : ℚ := height / (gridY : ℚ)
  let ps := planePositions width height segW segH gridX1 gridY1
  { positions := ps,
    normals := ps.map (fun _ => (⟨0, 0, 1⟩ : Vec3)),
    index := some (planeIndices gridX.toNat gridY.toNat gridX1),
    boundingBox := none,
    boundingSphere := none }

/-- The depth-displacement loop of createMeshFromDepthMap (source
lines 197-202): for each flattened vertex index i it reads
depthMap[floor(i / width)][i mod width] and overwrites the z
coordinate with (1 - depth) * extrusionScale + baseHeight * 20.
Out-of-range accesses read 0 here (JS would produce NaN); every
theorem below constrains the indices to stay in range. -/
def setZLoop (depthMap : List (List ℚ)) (width : ℕ) (extrusionScale baseHeight : ℚ) :
    ℕ → List Vec3 → List Vec3
  | _, [] => []
  | i, p :: ps =>
    let depth := (depthMap.getD (i / width) []).getD (i % width) 0
    { p with z := (1 - depth) * extrusionScale + baseHeight * 20 } ::
      setZLoop depthMap width extrusionScale baseHeight (i + 1) ps

/-- The indexed-geometry accumulation loop of
THREE.BufferGeometry.computeVertexNormals: for every index triple
(vA, vB, vC) add cross(pC - pB, pA - pB) into the normal slots of all
three vertices. -/
def addTriNormals (positions : List Vec3) : List ℕ → List Vec3 → List Vec3
  | vA :: vB :: vC :: rest, ns =>
    let pA := positions.getD vA Vec3.zero
    let pB := positions.getD vB Vec3.zero
    let pC := positions.getD vC Vec3.zero
    let n := vcross (vsub pC pB) (vsub pA pB)
    let ns := ns.set vA (vadd (ns.getD vA Vec3.zero) n)
    let ns := ns.set vB (vadd (ns.getD vB Vec3.zero) n)
    let ns := ns.set vC (vadd (ns.getD vC Vec3.zero) n)
    addTriNormals positions rest ns
  | _, ns => ns

/-- Non-indexed branch of computeVertexNormals: consecutive vertex
triples each receive their flat face normal. -/
def flatTriNormals : List Vec3 → List Vec3
  | pA :: pB :: pC :: rest =>
    let n := vcross (vsub pC pB) (vsub pA pB)
    n :: n :: n :: flatTriNormals rest
  | rest => rest.map (fun _ => Vec3.zero)

/-- Model of THREE.BufferGeometry.computeVertexNormals: normals are
reset to zero and face normals accumulated per vertex.  The final
per-vertex unit normalization of three.js (division by the Euclidean
length, a real square root) is omitted; the positions and the index
are untouched either way, which is all any theorem below uses. -/
def computeVertexNormals (g : BufferGeometry) : BufferGeometry :=
  match g.index with
  | some idx =>
    { g with normals := addTriNormals g.positions idx (g.positions.map (fun _ => Vec3.zero)) }
  | none => { g with normals := flatTriNormals g.positions }

/-- Model of THREE.BufferGeometry.center(): compute the bounding box,
negate its center and translate every vertex by it.  The translation
in three.js goes through applyMatrix4, which recomputes whichever
bounding volumes were already cached; we recompute the box (center
just computed it) and the sphere when present. -/
def geometryCenter (g : BufferGeometry) : BufferGeometry :=
  let c := bboxCenter g.positions
  let ps := g.positions.map (fun p => vsub p c)
  let sphere := if g.boundingSphere.isSome then some (sphereOf ps) else none
  { g with
    positions := ps,
    boundingBox := some ⟨bboxMin ps, bboxMax ps⟩,
    boundingSphere := sphere }

/-- Model of THREE.BufferGeometry.computeBoundingBox. -/
def computeBoundingBoxF (g : BufferGeometry) : BufferGeometry :=
  { g with boundingBox := some ⟨bboxMin g.positions, bboxMax g.positions⟩ }

/-- Model of THREE.BufferGeometry.computeBoundingSphere: its center is
the bounding-box center and its radius the largest distance from that
center to a vertex (stored squared here). -/
def computeBoundingSphereF (g : BufferGeometry) : BufferGeometry :=
  { g with boundingSphere := some (sphereOf g.positions) }

/-- The source photograph as a decoded image: only its pixel
dimensions are observable to the exporter metadata. -/
structure TextureVal where
  imageW : ℕ
  imageH : ℕ
deriving DecidableEq, Repr

/-- Model of the MeshStandardMaterial built by createMeshFromDepthMap:
map is the photograph texture, normalMap reuses the same texture when
the use-normal-map checkbox is on (with the fixed strength 0.5), and
the material is double sided. -/
structure MaterialVal where
  map : Option TextureVal
  normalMap : Option TextureVal
  normalScale : Option (ℚ × ℚ)
  doubleSided : Bool
deriving DecidableEq, Repr

/-- The conversion parameters read from the settings panel at source
lines 184-187.  The sliders hold percent values; the script divides
them by 100, so depthScale and baseHeight here are the resulting
ratios. -/
structure MeshParams where
  depthScale : ℚ
  baseHeight : ℚ
  useNormalMap : Bool
  autoCenter : Bool
deriving DecidableEq, Repr

/-- A built Surface: the mesh returned by createMeshFromDepthMap.
Rotations are Euler angles stored as rational multiples of pi (the
script only ever sets -pi/2, stored as -1/2). -/
structure Mesh where
  geometry : BufferGeometry
  material : MaterialVal
  position : Vec3
  rotX : ℚ
  rotY : ℚ
  rotZ : ℚ
deriving DecidableEq, Repr

/-- The geometry stage of createMeshFromDepthMap (source lines
190-205): extrusionScale = 100 * depthScale; build
PlaneGeometry(width, height, width-1, height-1); run the depth
displacement loop; recompute vertex normals.  This is the geometry of
the returned mesh before the optional auto-centering. -/
def displacedGeometry (depthMap : List (List ℚ)) (height width : ℕ)
    (depthScale baseHeight : ℚ) : BufferGeometry :=
  let extrusionScale : ℚ := 100 * depthScale
  let g := planeGeometry (width : ℚ) (height : ℚ) ((width : ℤ) - 1) ((height : ℤ) - 1)
  let g := { g with positions := setZLoop depthMap width extrusionScale baseHeight 0 g.positions }
  computeVertexNormals g

/-- Model of createMeshFromDepthMap (source lines 179-236).  The
depth map array has shape [height, width] (tensor shape order).  The
texture wrapping (needsUpdate flag) is a renderer concern and not
modelled.  The mesh is rotated by -pi/2 about x; when autoCenter is
set, the geometry is centered and the mesh position reset to the
origin. -/
def createMeshFromDepthMap (depthMap : List (List ℚ)) (height width : ℕ)
    (textureImage : TextureVal) (params : MeshParams) : Mesh :=
  let g := displacedGeometry depthMap height width params.depthScale params.baseHeight
  let material : MaterialVal :=
    { map := some textureImage,
      normalMap := if params.useNormalMap then some textureImage else none,
      normalScale := if params.useNormalMap then some (1/2, 1/2) else none,
      doubleSided := true }
  let mesh : Mesh :=
    { geometry := g, material := material,
      position := Vec3.zero, rotX := -(1/2), rotY := 0, rotZ := 0 }
  if params.autoCenter then
    { mesh with geometry := geometryCenter g, position := Vec3.zero }
  else mesh

/-- The triangles of a geometry: consecutive triples of the index
buffer (an absent index yields no triangles here; the non-indexed
drawing interpretation never arises for the meshes this program
builds, which are always indexed). -/
def indexTriples : List ℕ → List (ℕ × ℕ × ℕ)
  | a :: b :: c :: rest => (a, b, c) :: indexTriples rest
  | _ => []

def triangles (g : BufferGeometry) : List (ℕ × ℕ × ℕ) :=
  indexTriples (g.index.getD [])

/-!
## The export pipeline and the object heap

three.js Mesh.clone() copies the node (transform, flags) but takes the
geometry and the material over by reference, and Material.dispose()
releases the material alone, not the textures it maps.  Both facts
are observable in the script (the clone built by
optimizeModelForExport is centered in place, and the replaced mesh
only has geometry.dispose() and material.dispose() called on it), so
the embedding makes object identity explicit: geometries, materials
and textures live in heaps indexed by naturals, and a mesh holds
references. -/

/-- A material on the heap: its texture reference and its disposed
flag. -/
structure MaterialRec where
  map : Option ℕ
  disposed : Bool
deriving DecidableEq, Repr

/-- The object heap: geometries, their disposed flags, materials, and
the disposed flags of textures. -/
structure World where
  geoms : List BufferGeometry
  geomDisposed : List Bool
  mats : List MaterialRec
  texDisposed : List Bool
deriving DecidableEq, Repr

/-- A mesh as a heap object: references to its geometry and material
plus its own transform (rotations again as rational multiples of pi).
The Option on geometry and material models a mesh whose fields are
null/undefined, which the pre-export validation checks for. -/
structure MeshRef where
  geometry : Option ℕ
  material : Option ℕ
  position : Vec3
  rotX : ℚ
  rotY : ℚ
  rotZ : ℚ
deriving DecidableEq, Repr

/-- The distinct pre-export failure conditions of
validateModelForExport; the script reports them as three distinct
human-readable messages (no valid geometry / no valid vertices / no
valid texture), which the specification names MissingGeometryError,
EmptyMeshError and MissingTextureError. -/
inductive ExportValidationError where
  | missingGeometry
  | emptyMesh
  | missingTexture
deriving DecidableEq, Repr

/-- Model of validateModelForExport (source lines 240-255): fail on a
missing geometry first, then on a missing/empty position attribute,
then on a missing material or a material without a texture map; the
two halves of the last JS condition (no material at all, material
without map) raise the same message. -/
def validateModelForExport (w : World) (m : MeshRef) :
    Except ExportValidationError Unit :=
  match m.geometry with
  | none => .error .missingGeometry
  | some gi =>
    if (w.geoms.getD gi emptyGeometry).positions.length = 0 then
      .error .emptyMesh
    else
      match m.material with
      | none => .error .missingTexture
      | some mi =>
        if (w.mats.getD mi ⟨none, false⟩).map = none then .error .missingTexture
        else .ok ()

/-- Model of three.js Mesh.clone(): the new node copies the transform
of the old one and references the same geometry and the same material
(three.js Object3D.copy is shallow for these two fields); in the heap
embedding the clone is therefore the same record, holding the same
heap indices. -/
def meshClone (m : MeshRef) : MeshRef := m

/-- The geometry work optimizeModelForExport performs on the clone:
center(), computeVertexNormals(), computeBoundingBox(),
computeBoundingSphere(), in that order (source lines 258-272). -/
def optimizeGeometry (g : BufferGeometry) : BufferGeometry :=
  computeBoundingSphereF (computeBoundingBoxF (computeVertexNormals (geometryCenter g)))

/-- Model of optimizeModelForExport: clone the mesh and run the
geometry pipeline on the geometry the clone references.  Because the
clone shares that geometry with the original mesh, the update lands
in the heap, on the live geometry.  (The script can only reach this
function with a validated mesh, whose geometry reference is set.) -/
def optimizeModelForExport (w : World) (m : MeshRef) : World × MeshRef :=
  let optimizedMesh := meshClone m
  match optimizedMesh.geometry with
  | some gi =>
    ({ w with geoms := w.geoms.set gi (optimizeGeometry (w.geoms.getD gi emptyGeometry)) },
     optimizedMesh)
  | none => (w, optimizedMesh)

/-- The export metadata block assembled in downloadGLB (source lines
325-331): vertex count is the position-attribute count, the face
count is index.count / 3 when an index buffer exists and 0 otherwise
(a JS float division, hence rational here), and the texture
resolution echoes the image dimensions when an image is present. -/
structure GLBMetadata where
  vertices : ℕ
  faces : ℚ
  textureResolution : Option (ℕ × ℕ)
deriving DecidableEq, Repr

def exportMetadata (g : BufferGeometry) (texRes : Option (ℕ × ℕ)) : GLBMetadata :=
  { vertices := g.positions.length,
    faces :=
      match g.index with
      | some idx => (idx.length : ℚ) / 3
      | none => 0,
    textureResolution := texRes }

/-- The metadata the export path reports for a given live geometry:
downloadGLB computes it from meshForExport, after
optimizeModelForExport has run. -/
def prepareForExportMetadata (g : BufferGeometry) (texRes : Option (ℕ × ℕ)) :
    GLBMetadata :=
  exportMetadata (optimizeGeometry g) texRes

/-- Dispose the geometry and the material a mesh references, exactly
the two calls the script makes (geometry.dispose();
material.dispose()).  three.js Material.dispose does not dispose the
textures the material maps, and the script never calls
texture.dispose() anywhere, so the texture flags are untouched. -/
def disposeGeometryAndMaterial (w : World) (m : MeshRef) : World :=
  let w1 :=
    match m.geometry with
    | some gi => { w with geomDisposed := w.geomDisposed.set gi true }
    | none => w
  match m.material with
  | some mi =>
    { w1 with mats := w1.mats.set mi { w1.mats.getD mi ⟨none, false⟩ with disposed := true } }
  | none => w1

/-- The failure reported by downloadGLB on each early-exit path; the
script shows each as an alert message.  The serialization case is
what the specification calls ExportSerializationError. -/
inductive DownloadError where
  | noModel
  | validation (e : ExportValidationError)
  | serialization
deriving DecidableEq, Repr

/-- Model of downloadGLB (source lines 274-393).  The external
GLTFExporter is a collaborator: whether its failure callback fires is
the serializerFails input.  Result: the heap afterwards, whether a
file (blob plus download link) was produced, and the reported error
if any.  Flow, as in the source: no current mesh means an immediate
error; validation errors abort before any mutation; then
optimizeModelForExport runs (mutating the shared geometry in the
heap), the clone is re-posed for export, and the exporter is awaited.
On the failure callback the catch block reports the error and no blob
is ever created; the deferred cleanup that disposes the export mesh
resources only runs on the success path (it is scheduled after the
await succeeds). -/
def downloadGLB (w : World) (currentMesh : Option MeshRef) (serializerFails : Bool) :
    World × Bool × Option DownloadError :=
  match currentMesh with
  | none => (w, false, some .noModel)
  | some mesh =>
    match validateModelForExport w mesh with
    | .error e => (w, false, some (.validation e))
    | .ok _ =>
      let p := optimizeModelForExport w mesh
      let meshForExport : MeshRef :=
        { p.2 with position := Vec3.zero, rotX := -(1/2), rotY := 0, rotZ := 0 }
      if serializerFails then
        (p.1, false, some .serialization)
      else
        (disposeGeometryAndMaterial p.1 meshForExport, true, none)

/-- Model of the mesh replacement in the generate-button listener
(source lines 510-515): the old mesh leaves the scene, its geometry
and material are disposed, and the newly built mesh becomes current.
No texture is disposed anywhere in the script. -/
def replaceCurrentMesh (w : World) (old newMesh : MeshRef) : World × MeshRef :=
  (disposeGeometryAndMaterial w old, newMesh)

/-!
## Concrete instances

The 2x2 scenario of the specification, installed in a heap so the
export-path theorems can observe aliasing: geometry 0 is the live
displaced geometry (built with auto-centering off, heights
100,0,0,100), material 0 maps texture 0. -/

def sampleTexture : TextureVal := ⟨4, 4⟩

def liveGeometry : BufferGeometry :=
  (createMeshFromDepthMap [[0, 1], [1, 0]] 2 2 sampleTexture ⟨1, 0, false, false⟩).geometry

def liveWorld : World :=
  { geoms := [liveGeometry], geomDisposed := [false],
    mats := [⟨some 0, false⟩], texDisposed := [false] }

def liveMesh : MeshRef :=
  { geometry := some 0, material := some 0,
    position := Vec3.zero, rotX := -(1/2), rotY := 0, rotZ := 0 }

/-- A freshly built replacement mesh for the replacement scenario. -/
def freshMesh : MeshRef :=
  { geometry := some 1, material := some 1,
    position := Vec3.zero, rotX := -(1/2), rotY := 0, rotZ := 0 }

/-- A mesh with geometry but no material, for the validation-order
scenario. -/
def noTexWorld : World :=
  { geoms := [⟨[Vec3.zero], [], none, none, none⟩], geomDisposed := [false],
    mats := [], texDisposed := [] }

def noTexMesh : MeshRef :=
  { geometry := some 0, material := none,
    position := Vec3.zero, rotX := -(1/2), rotY := 0, rotZ := 0 }

/-!
## Helper lemmas -/

theorem length_flatMap_const {α β : Type} (f : α → List β) (k : ℕ) :
    ∀ l : List α, (∀ a ∈ l, (f a).length = k) → (l.flatMap f).length = l.length * k := by
  intro l h
  induction l with
  | nil => simp
  | cons a as ih =>
    simp only [List.flatMap_cons, List.length_append, List.length_cons]
    rw [h a (by simp), ih (fun b hb => h b (List.mem_cons_of_mem _ hb))]
    ring

theorem planePositions_length (width height segW segH : ℚ) (gridX1 gridY1 : ℕ) :
    (planePositions width height segW segH gridX1 gridY1).length = gridY1 * gridX1 := by
  unfold planePositions
  rw [length_flatMap_const _ gridX1]
  · simp
  · intro a _
    simp only [planeRow, List.length_map, List.length_range]

theorem planeIndices_length (gridX gridY gridX1 : ℕ) :
    (planeIndices gridX gridY gridX1).length = gridY * (gridX * 6) := by
  unfold planeIndices
  rw [length_flatMap_const _ (gridX * 6)]
  · simp
  · intro iy _
    rw [length_flatMap_const _ 6]
    · simp
    · intro ix _
      rfl

theorem planeGeometry_positions_length (width height : ℚ) (wS hS : ℤ) :
    (planeGeometry width height wS hS).positions.length = (hS + 1).toNat * (wS + 1).toNat := by
  simp [planeGeometry, planePositions_length]

theorem setZLoop_length (dm : List (List ℚ)) (w : ℕ) (e b : ℚ) :
    ∀ (i : ℕ) (ps : List Vec3), (setZLoop dm w e b i ps).length = ps.length := by
  intro i ps
  induction ps generalizing i with
  | nil => rfl
  | cons p ps ih => simp [setZLoop, ih]

theorem setZLoop_getD_z (dm : List (List ℚ)) (w : ℕ) (e b : ℚ) :
    ∀ (ps : List Vec3) (i j : ℕ), j < ps.length →
      ((setZLoop dm w e b i ps).getD j Vec3.zero).z
        = (1 - (dm.getD ((i + j) / w) []).getD ((i + j) % w) 0) * e + b * 20 := by
  intro ps
  induction ps with
  | nil =>
    intro i j h
    simp at h
  | cons p ps ih =>
    intro i j h
    cases j with
    | zero => simp [setZLoop]
    | succ j =>
      have h2 : j < ps.length := by
        simpa using Nat.lt_of_succ_lt_succ h
      have hstep := ih (i + 1) j h2
      have harith : i + 1 + j = i + (j + 1) := by omega
      rw [harith] at hstep
      simpa [setZLoop] using hstep

theorem computeVertexNormals_positions (g : BufferGeometry) :
    (computeVertexNormals g).positions = g.positions := by
  rcases hg : g.index with _ | idx <;> simp [computeVertexNormals, hg]

theorem computeVertexNormals_index (g : BufferGeometry) :
    (computeVertexNormals g).index = g.index := by
  rcases hg : g.index with _ | idx <;> simp [computeVertexNormals, hg]

theorem geometryCenter_positions (g : BufferGeometry) :
    (geometryCenter g).positions
      = g.positions.map (fun p => vsub p (bboxCenter g.positions)) := rfl

theorem geometryCenter_index (g : BufferGeometry) :
    (geometryCenter g).index = g.index := rfl

theorem displacedGeometry_positions_length (dm : List (List ℚ)) (h w : ℕ) (ds bh : ℚ) :
    (displacedGeometry dm h w ds bh).positions.length = w * h := by
  unfold displacedGeometry
  rw [computeVertexNormals_positions]
  simp only [setZLoop_length, planeGeometry_positions_length]
  have h1 : ((h : ℤ) - 1 + 1).toNat = h := by omega
  have h2 : ((w : ℤ) - 1 + 1).toNat = w := by omega
  rw [h1, h2, Nat.mul_comm]

theorem createMesh_positions_length (dm : List (List ℚ)) (h w : ℕ)
    (tex : TextureVal) (params : MeshParams) :
    (createMeshFromDepthMap dm h w tex params).geometry.positions.length = w * h := by
  rcases params with ⟨ds, bh, unm, ac⟩
  cases ac <;>
    simp [createMeshFromDepthMap, geometryCenter_positions,
      displacedGeometry_positions_length]

theorem createMesh_index (dm : List (List ℚ)) (h w : ℕ)
    (tex : TextureVal) (params : MeshParams) :
    (createMeshFromDepthMap dm h w tex params).geometry.index
      = (planeGeometry (w : ℚ) (h : ℚ) ((w : ℤ) - 1) ((h : ℤ) - 1)).index := by
  rcases params with ⟨ds, bh, unm, ac⟩
  cases ac <;>
    simp [createMeshFromDepthMap, displacedGeometry, geometryCenter_index,
      computeVertexNormals_index]

theorem indexTriples_length : ∀ l : List ℕ, (indexTriples l).length = l.length / 3
  | [] => rfl
  | [a] => by
    have h1 : indexTriples [a] = [] := rfl
    simp [h1]
  | [a, b] => by
    have h1 : indexTriples [a, b] = [] := rfl
    simp [h1]
  | a :: b :: c :: rest => by
    have h1 : indexTriples (a :: b :: c :: rest) = (a, b, c) :: indexTriples rest := rfl
    simp only [h1, List.length_cons, indexTriples_length rest]
    omega

theorem createMesh_triangle_count (dm : List (List ℚ)) (h w : ℕ)
    (tex : TextureVal) (params : MeshParams) :
    (triangles (createMeshFromDepthMap dm h w tex params).geometry).length
      = (w - 1) * (h - 1) * 2 := by
  rw [triangles, createMesh_index]
  have ha : ((w : ℤ) - 1).toNat = w - 1 := by omega
  have hb : ((h : ℤ) - 1).toNat = h - 1 := by omega
  simp only [planeGeometry, Option.getD_some, indexTriples_length, planeIndices_length,
    ha, hb]
  have : (h - 1) * ((w - 1) * 6) = ((w - 1) * (h - 1) * 2) * 3 := by ring
  rw [this, Nat.mul_div_cancel _ (by norm_num)]

theorem optimizeGeometry_positions_length (g : BufferGeometry) :
    (optimizeGeometry g).positions.length = g.positions.length := by
  simp [optimizeGeometry, computeBoundingSphereF, computeBoundingBoxF,
    computeVertexNormals_positions, geometryCenter_positions]

theorem optimizeGeometry_index (g : BufferGeometry) :
    (optimizeGeometry g).index = g.index := by
  simp [optimizeGeometry, computeBoundingSphereF, computeBoundingBoxF,
    computeVertexNormals_index, geometryCenter_index]

theorem getD_set_self {α : Type} :
    ∀ (l : List α) (i : ℕ) (a d : α), i < l.length → (l.set i a).getD i d = a
  | _ :: _, 0, _, _, _ => rfl
  | _ :: l, i + 1, a, d, h =>
    getD_set_self l i a d (by simpa using Nat.lt_of_succ_lt_succ h)
  | [], _, _, _, h => absurd h (by simp)

theorem foldl_min_map_sub (c : ℚ) :
    ∀ (as : List ℚ) (a : ℚ),
      (as.map (fun v => v - c)).foldl min (a - c) = as.foldl min a - c := by
  intro as
  induction as with
  | nil => intro a; rfl
  | cons b bs ih =>
    intro a
    simp only [List.map_cons, List.foldl_cons]
    rw [min_sub_sub_right, ih]

theorem foldl_max_map_sub (c : ℚ) :
    ∀ (as : List ℚ) (a : ℚ),
      (as.map (fun v => v - c)).foldl max (a - c) = as.foldl max a - c := by
  intro as
  induction as with
  | nil => intro a; rfl
  | cons b bs ih =>
    intro a
    simp only [List.map_cons, List.foldl_cons]
    rw [max_sub_sub_right, ih]

theorem listMin_map_sub (c : ℚ) (l : List ℚ) (hne : l ≠ []) :
    listMin (l.map (fun v => v - c)) = listMin l - c := by
  cases l with
  | nil => cases hne rfl
  | cons a as => simp [listMin, foldl_min_map_sub]

theorem listMax_map_sub (c : ℚ) (l : List ℚ) (hne : l ≠ []) :
    listMax (l.map (fun v => v - c)) = listMax l - c := by
  cases l with
  | nil => cases hne rfl
  | cons a as => simp [listMax, foldl_max_map_sub]

theorem map_comp_x (ps : List Vec3) (c : Vec3) :
    (ps.map (fun p => vsub p c)).map Vec3.x = (ps.map Vec3.x).map (fun v => v - c.x) := by
  simp only [List.map_map]
  rfl

theorem map_comp_y (ps : List Vec3) (c : Vec3) :
    (ps.map (fun p => vsub p c)).map Vec3.y = (ps.map Vec3.y).map (fun v => v - c.y) := by
  simp only [List.map_map]
  rfl

theorem map_comp_z (ps : List Vec3) (c : Vec3) :
    (ps.map (fun p => vsub p c)).map Vec3.z = (ps.map Vec3.z).map (fun v => v - c.z) := by
  simp only [List.map_map]
  rfl

theorem bboxCenter_of_centered (ps : List Vec3) :
    bboxCenter (ps.map (fun p => vsub p (bboxCenter ps))) = Vec3.zero := by
  cases hps : ps with
  | nil => simp [bboxCenter, listMin, listMax, Vec3.zero]
  | cons q qs =>
    have hne : ∀ f : Vec3 → ℚ, ps.map f ≠ [] := by
      intro f
      rw [hps]
      simp
    rw [← hps]
    unfold bboxCenter Vec3.zero
    rw [map_comp_x, map_comp_y, map_comp_z,
      listMin_map_sub _ _ (hne _), listMax_map_sub _ _ (hne _),
      listMin_map_sub _ _ (hne _), listMax_map_sub _ _ (hne _),
      listMin_map_sub _ _ (hne _), listMax_map_sub _ _ (hne _)]
    simp only [bboxCenter, Vec3.mk.injEq]
    refine ⟨by ring, by ring, by ring⟩

theorem liveGeometry_heights : liveGeometry.positions.map Vec3.z = [100, 0, 0, 100] := by
  simp [liveGeometry, sampleTexture, createMeshFromDepthMap, displacedGeometry, planeGeometry,
    planePositions, planeRow, planeIndices, setZLoop, computeVertexNormals, addTriNormals,
    List.range_succ]

theorem live_getD_heights :
    (liveWorld.geoms.getD 0 emptyGeometry).positions.map Vec3.z = [100, 0, 0, 100] := by
  simpa [liveWorld] using liveGeometry_heights

theorem optimized_live_heights :
    ((optimizeModelForExport liveWorld liveMesh).1.geoms.getD 0 emptyGeometry).positions.map Vec3.z
      = [50, -50, -50, 50] := by
  norm_num [optimizeModelForExport, meshClone, liveWorld, liveMesh, optimizeGeometry,
    computeBoundingSphereF, computeBoundingBoxF, computeVertexNormals, addTriNormals,
    geometryCenter, bboxCenter, bboxMin, bboxMax, listMin, listMax, sphereOf, vsub, vadd, vcross,
    liveGeometry, sampleTexture, createMeshFromDepthMap, displacedGeometry, planeGeometry,
    planePositions, planeRow, planeIndices, setZLoop, List.range_succ, min_def, max_def]

theorem optimize_changes_live_positions :
    ((optimizeModelForExport liveWorld liveMesh).1.geoms.getD 0 emptyGeometry).positions
      ≠ (liveWorld.geoms.getD 0 emptyGeometry).positions := by
  intro hEq
  have h1 := optimized_live_heights
  rw [hEq, live_getD_heights] at h1
  norm_num at h1

theorem downloadGLB_fail_eq :
    downloadGLB liveWorld (some liveMesh) true
      = ((optimizeModelForExport liveWorld liveMesh).1, false, some .serialization) := by
  have hne : liveGeometry.positions ≠ [] := by
    intro h0
    have hlen := congrArg List.length h0
    rw [liveGeometry, createMesh_positions_length] at hlen
    simp at hlen
  simp [downloadGLB, validateModelForExport, liveMesh, liveWorld, hne]

/-!
## Claim theorems -/

/-- Claim C1: for every depth field and every (depthScale, baseHeight)
pair, the converter sets the height (z) coordinate of the vertex at
row y, column x (flattened index i = y*width + x) to
(1 - depth[y][x]) * (100 * depthScale) + baseHeight * 20.  Stated for
the returned mesh with autoCenter off; auto-centering, a separate
later step, only translates all vertices uniformly.  Since the value
depends on the depth entry alone, a constant depth field gives every
vertex the same height, independent of position. -/
theorem createMesh_sets_height_formula
    (depthMap : List (List ℚ)) (height width : ℕ) (tex : TextureVal)
    (depthScale baseHeight : ℚ) (useNM : Bool) (y x : ℕ)
    (hy : y < height) (hx : x < width)
    (hrows : depthMap.length = height)
    (_hcols : ∀ row ∈ depthMap, row.length = width) :
    ((createMeshFromDepthMap depthMap height width tex
        ⟨depthScale, baseHeight, useNM, false⟩).geometry.positions.getD
      (y * width + x) Vec3.zero).z
      = (1 - (depthMap.getD y []).getD x 0) * (100 * depthScale) + baseHeight * 20 := by
  have hgeom : (createMeshFromDepthMap depthMap height width tex
      ⟨depthScale, baseHeight, useNM, false⟩).geometry
      = displacedGeometry depthMap height width depthScale baseHeight := by
    simp [createMeshFromDepthMap]
  rw [hgeom]
  simp only [displacedGeometry]
  rw [computeVertexNormals_positions]
  have hw : 0 < width := by omega
  have hlt : y * width + x
      < (planeGeometry (width : ℚ) (height : ℚ) ((width : ℤ) - 1) ((height : ℤ) - 1)).positions.length := by
    rw [planeGeometry_positions_length]
    have h1 : ((height : ℤ) - 1 + 1).toNat = height := by omega
    have h2 : ((width : ℤ) - 1 + 1).toNat = width := by omega
    rw [h1, h2]
    calc y * width + x < y * width + width := by omega
      _ = (y + 1) * width := by ring
      _ ≤ height * width := Nat.mul_le_mul_right _ hy
  rw [setZLoop_getD_z _ _ _ _ _ 0 _ hlt]
  have hdiv : (0 + (y * width + x)) / width = y := by
    rw [Nat.zero_add, Nat.mul_comm y width, Nat.mul_add_div hw, Nat.div_eq_of_lt hx,
      Nat.add_zero]
  have hmod : (0 + (y * width + x)) % width = x := by
    rw [Nat.zero_add, Nat.mul_comm y width, Nat.mul_add_mod, Nat.mod_eq_of_lt hx]
  rw [hdiv, hmod]

/-- Witness for C1: in the 2x2 scenario field, vertex (0,1) gets
height (1 - 1) * 100 + 0 = 0. -/
theorem createMesh_sets_height_formula_witness :
    (0 : ℕ) < 2 ∧ (1 : ℕ) < 2
      ∧ ((createMeshFromDepthMap [[0, 1], [1, 0]] 2 2 sampleTexture
            ⟨1, 0, false, false⟩).geometry.positions.getD (0 * 2 + 1) Vec3.zero).z
        = (1 - (([[(0 : ℚ), 1], [1, 0]].getD 0 []).getD 1 0)) * (100 * 1) + 0 * 20 :=
  ⟨by decide, by decide,
    createMesh_sets_height_formula [[0, 1], [1, 0]] 2 2 sampleTexture 1 0 false 0 1
      (by decide) (by decide) (by decide) (by decide)⟩

/-- Claim C2: for every depth field with width, height at least 2 and
values in [0,1], the converter builds a Surface with width*height
vertices and (width-1)*(height-1)*2 triangles, and its index buffer
is exactly the fixed row-major PlaneGeometry grid connectivity,
independent of the depth values and of all parameters. -/
theorem buildSurface_vertex_triangle_counts
    (depthMap : List (List ℚ)) (height width : ℕ) (tex : TextureVal) (params : MeshParams)
    (_hw : 2 ≤ width) (_hh : 2 ≤ height)
    (_hrows : depthMap.length = height)
    (_hcols : ∀ row ∈ depthMap, row.length = width)
    (_hrange : ∀ row ∈ depthMap, ∀ v ∈ row, 0 ≤ v ∧ v ≤ 1) :
    (createMeshFromDepthMap depthMap height width tex params).geometry.positions.length
        = width * height
      ∧ (triangles (createMeshFromDepthMap depthMap height width tex params).geometry).length
        = (width - 1) * (height - 1) * 2
      ∧ (createMeshFromDepthMap depthMap height width tex params).geometry.index
        = (planeGeometry (width : ℚ) (height : ℚ) ((width : ℤ) - 1) ((height : ℤ) - 1)).index :=
  ⟨createMesh_positions_length depthMap height width tex params,
    createMesh_triangle_count depthMap height width tex params,
    createMesh_index depthMap height width tex params⟩

/-- Witness for C2 at the 2x2 scenario input. -/
theorem buildSurface_vertex_triangle_counts_witness :
    (2 ≤ 2)
      ∧ ((createMeshFromDepthMap [[0, 1], [1, 0]] 2 2 sampleTexture
            ⟨1, 0, false, false⟩).geometry.positions.length = 2 * 2
        ∧ (triangles (createMeshFromDepthMap [[0, 1], [1, 0]] 2 2 sampleTexture
            ⟨1, 0, false, false⟩).geometry).length = (2 - 1) * (2 - 1) * 2
        ∧ (createMeshFromDepthMap [[0, 1], [1, 0]] 2 2 sampleTexture
            ⟨1, 0, false, false⟩).geometry.index
          = (planeGeometry ((2 : ℕ) : ℚ) ((2 : ℕ) : ℚ) (((2 : ℕ) : ℤ) - 1) (((2 : ℕ) : ℤ) - 1)).index) :=
  ⟨by decide,
    buildSurface_vertex_triangle_counts [[0, 1], [1, 0]] 2 2 sampleTexture ⟨1, 0, false, false⟩
      (by decide) (by decide) (by decide) (by decide) (by norm_num)⟩

/-- Claim C3: the 2x2 depth field [[0,1],[1,0]] with depthScale 1 and
baseHeight 0 yields vertex heights [100, 0, 0, 100] in row-major
order, and a mesh of exactly two triangles. -/
theorem concrete_2x2_scenario :
    (createMeshFromDepthMap [[0, 1], [1, 0]] 2 2 sampleTexture
        ⟨1, 0, false, false⟩).geometry.positions.map Vec3.z = [100, 0, 0, 100]
      ∧ (triangles (createMeshFromDepthMap [[0, 1], [1, 0]] 2 2 sampleTexture
          ⟨1, 0, false, false⟩).geometry).length = 2 := by
  constructor
  · simp [sampleTexture, createMeshFromDepthMap, displacedGeometry, planeGeometry,
      planePositions, planeRow, planeIndices, setZLoop, computeVertexNormals, addTriNormals,
      List.range_succ]
  · decide

/-- Counterexample to claim C4: at the degenerate 1-column depth
field [[0],[0]] (width 1, height 2) the converter does not fail at
all: createMeshFromDepthMap (source lines 179-236) contains no
dimension check and no throw, and returns an ordinary Surface with
1*2 = 2 vertices and zero triangles.  No InvalidInputError exists
anywhere in the program. -/
theorem degenerate_input_returns_surface :
    (createMeshFromDepthMap [[0], [0]] 2 1 sampleTexture
        ⟨1, 0, false, false⟩).geometry.positions.length = 2
      ∧ (triangles (createMeshFromDepthMap [[0], [0]] 2 1 sampleTexture
          ⟨1, 0, false, false⟩).geometry).length = 0 := by
  constructor
  · rw [createMesh_positions_length]
  · rw [createMesh_triangle_count]

/-- Amended C4: for every depth field whose width or height is below
2, the converter does not fail; it returns a degenerate Surface with
width*height vertices and zero triangles (there is no validation and
no InvalidInputError in the code). -/
theorem degenerate_input_no_failure
    (depthMap : List (List ℚ)) (height width : ℕ) (tex : TextureVal) (params : MeshParams)
    (hdeg : width < 2 ∨ height < 2) :
    (createMeshFromDepthMap depthMap height width tex params).geometry.positions.length
        = width * height
      ∧ (triangles (createMeshFromDepthMap depthMap height width tex params).geometry).length
        = 0 := by
  refine ⟨createMesh_positions_length depthMap height width tex params, ?_⟩
  rw [createMesh_triangle_count]
  rcases hdeg with h | h
  · have hz : width - 1 = 0 := by omega
    simp [hz]
  · have hz : height - 1 = 0 := by omega
    simp [hz]

/-- Witness for the amended C4 at a 1-wide input. -/
theorem degenerate_input_no_failure_witness :
    ((1 : ℕ) < 2 ∨ (2 : ℕ) < 2)
      ∧ ((createMeshFromDepthMap [[0], [0]] 2 1 sampleTexture
            ⟨1, 1, true, true⟩).geometry.positions.length = 1 * 2
        ∧ (triangles (createMeshFromDepthMap [[0], [0]] 2 1 sampleTexture
            ⟨1, 1, true, true⟩).geometry).length = 0) :=
  ⟨Or.inl (by decide),
    degenerate_input_no_failure [[0], [0]] 2 1 sampleTexture ⟨1, 1, true, true⟩
      (Or.inl (by decide))⟩

/-- Claim C5 is false of the code (code bug): optimizeModelForExport
clones the mesh with three.js Mesh.clone, which shares the geometry
object, and then centers that shared geometry, so the live Surface
does NOT remain unchanged.  Evaluating the embedded code on the live
2x2 Surface (heights 100,0,0,100, bounding-box z-center 50): after
export preparation the geometry in the heap the original mesh still
references has heights 50,-50,-50,50 — the original vertex positions
changed. -/
theorem optimize_mutates_live_surface :
    ((liveWorld.geoms.getD 0 emptyGeometry).positions.map Vec3.z = [100, 0, 0, 100])
      ∧ (((optimizeModelForExport liveWorld liveMesh).1.geoms.getD 0
            emptyGeometry).positions.map Vec3.z = [50, -50, -50, 50])
      ∧ ((optimizeModelForExport liveWorld liveMesh).1.geoms.getD 0 emptyGeometry).positions
          ≠ (liveWorld.geoms.getD 0 emptyGeometry).positions :=
  ⟨live_getD_heights, optimized_live_heights, optimize_changes_live_positions⟩

/-- Claim C6 is partly false of the code (code bug): when the
serializer failure callback fires, downloadGLB indeed produces no
output file and reports the serialization error, but the original
live Surface does NOT remain unchanged: its shared geometry was
already recentred by the export preparation that ran before the
serializer. -/
theorem export_failure_reports_and_mutates :
    ((downloadGLB liveWorld (some liveMesh) true).2.1 = false)
      ∧ ((downloadGLB liveWorld (some liveMesh) true).2.2 = some .serialization)
      ∧ (((downloadGLB liveWorld (some liveMesh) true).1.geoms.getD 0
            emptyGeometry).positions
          ≠ (liveWorld.geoms.getD 0 emptyGeometry).positions) := by
  refine ⟨by rw [downloadGLB_fail_eq], by rw [downloadGLB_fail_eq], ?_⟩
  rw [downloadGLB_fail_eq]
  exact optimize_changes_live_positions

/-- Claim C7: the pre-export checks run in the fixed order geometry,
vertex count, texture: every mesh that has a geometry with a nonzero
vertex count but no bound texture (either no material, or a material
without a map) fails with the missing-texture error, not with the
missing-geometry or empty-mesh errors. -/
theorem validation_texture_error_order (w : World) (m : MeshRef) (gi : ℕ)
    (hg : m.geometry = some gi)
    (hv : (w.geoms.getD gi emptyGeometry).positions.length ≠ 0)
    (ht : m.material = none
        ∨ ∃ mi, m.material = some mi ∧ (w.mats.getD mi ⟨none, false⟩).map = none) :
    validateModelForExport w m = .error .missingTexture := by
  unfold validateModelForExport
  rw [hg]
  rcases ht with hm | ⟨mi, hm, hmap⟩
  · rw [hm]
    show (if (w.geoms.getD gi emptyGeometry).positions.length = 0
        then Except.error ExportValidationError.emptyMesh
        else Except.error ExportValidationError.missingTexture)
      = Except.error ExportValidationError.missingTexture
    rw [if_neg hv]
  · rw [hm]
    show (if (w.geoms.getD gi emptyGeometry).positions.length = 0
        then Except.error ExportValidationError.emptyMesh
        else if (w.mats.getD mi ⟨none, false⟩).map = none
          then Except.error ExportValidationError.missingTexture
          else Except.ok ())
      = Except.error ExportValidationError.missingTexture
    rw [if_neg hv, if_pos hmap]

/-- Witness for C7: a one-vertex mesh with no material. -/
theorem validation_texture_error_order_witness :
    noTexMesh.geometry = some 0
      ∧ (noTexWorld.geoms.getD 0 emptyGeometry).positions.length ≠ 0
      ∧ validateModelForExport noTexWorld noTexMesh = .error .missingTexture :=
  ⟨rfl, by decide,
    validation_texture_error_order noTexWorld noTexMesh 0 rfl (by decide) (Or.inl rfl)⟩

/-- Claim C8: for every Surface geometry with V vertices and an index
buffer of 3*T entries (T triangles), the metadata the export path
computes after optimizeModelForExport reports vertices = V and
faces = T (the code divides the index count by 3; an unindexed
geometry would report 0). -/
theorem export_metadata_roundtrip (g : BufferGeometry) (texRes : Option (ℕ × ℕ))
    (V T : ℕ) (idx : List ℕ)
    (hV : g.positions.length = V) (hidx : g.index = some idx) (hT : idx.length = 3 * T) :
    (prepareForExportMetadata g texRes).vertices = V
      ∧ (prepareForExportMetadata g texRes).faces = (T : ℚ) := by
  constructor
  · simp [prepareForExportMetadata, exportMetadata, optimizeGeometry_positions_length, hV]
  · have hidx2 : (optimizeGeometry g).index = some idx := by
      rw [optimizeGeometry_index, hidx]
    simp [prepareForExportMetadata, exportMetadata, hidx2, hT]

/-- Witness for C8 on the 2x2 scenario geometry: 4 vertices, 2
triangles. -/
theorem export_metadata_roundtrip_witness :
    (displacedGeometry [[0, 1], [1, 0]] 2 2 1 0).positions.length = 4
      ∧ (displacedGeometry [[0, 1], [1, 0]] 2 2 1 0).index = some [0, 2, 1, 2, 3, 1]
      ∧ (prepareForExportMetadata (displacedGeometry [[0, 1], [1, 0]] 2 2 1 0)
          (some (4, 4))).vertices = 4
      ∧ (prepareForExportMetadata (displacedGeometry [[0, 1], [1, 0]] 2 2 1 0)
          (some (4, 4))).faces = ((2 : ℕ) : ℚ) :=
  ⟨by decide, by decide,
    (export_metadata_roundtrip (displacedGeometry [[0, 1], [1, 0]] 2 2 1 0) (some (4, 4))
      4 2 [0, 2, 1, 2, 3, 1] (by decide) (by decide) (by decide)).1,
    (export_metadata_roundtrip (displacedGeometry [[0, 1], [1, 0]] 2 2 1 0) (some (4, 4))
      4 2 [0, 2, 1, 2, 3, 1] (by decide) (by decide) (by decide)).2⟩

/-- Claim C9: recentring is idempotent — after one application of the
center() normalization the bounding-box center is the origin, and it
is still the origin after a second application, for every geometry. -/
theorem autoCenter_idempotent (g : BufferGeometry) :
    bboxCenter (geometryCenter g).positions = Vec3.zero
      ∧ bboxCenter (geometryCenter (geometryCenter g)).positions = Vec3.zero := by
  have key : ∀ g0 : BufferGeometry, bboxCenter (geometryCenter g0).positions = Vec3.zero := by
    intro g0
    rw [geometryCenter_positions]
    exact bboxCenter_of_centered g0.positions
  exact ⟨key g, key (geometryCenter g)⟩

/-- Counterexample to claim C10: after the replacement step of the
generate listener, the texture of the replaced Surface is still not
disposed — the script only calls geometry.dispose() and
material.dispose(), and three.js Material.dispose does not release
the mapped texture (nothing in the program ever does). -/
theorem replace_leaves_texture_undisposed :
    ((liveWorld.mats.getD 0 ⟨none, false⟩).map = some 0)
      ∧ ((replaceCurrentMesh liveWorld liveMesh freshMesh).1.texDisposed.getD 0 false
          = false) := by
  constructor <;> rfl

/-- Amended C10: replacing the current Surface releases the previous
geometry buffers and the previous material before discarding it, but
not its texture: the texture disposed flags are untouched. -/
theorem replace_releases_geometry_material_only (w : World) (old newMesh : MeshRef)
    (gi mi : ℕ) (hg : old.geometry = some gi) (hm : old.material = some mi)
    (hgi : gi < w.geomDisposed.length) (hmi : mi < w.mats.length) :
    ((replaceCurrentMesh w old newMesh).1.geomDisposed.getD gi false = true)
      ∧ (((replaceCurrentMesh w old newMesh).1.mats.getD mi ⟨none, false⟩).disposed = true)
      ∧ ((replaceCurrentMesh w old newMesh).1.texDisposed = w.texDisposed) := by
  simp only [replaceCurrentMesh, disposeGeometryAndMaterial, hg, hm]
  refine ⟨getD_set_self _ _ _ _ hgi, ?_, trivial⟩
  rw [getD_set_self _ _ _ _ hmi]

/-- Witness for the amended C10 on the live heap. -/
theorem replace_releases_geometry_material_only_witness :
    liveMesh.geometry = some 0 ∧ liveMesh.material = some 0
      ∧ 0 < liveWorld.geomDisposed.length ∧ 0 < liveWorld.mats.length
      ∧ ((replaceCurrentMesh liveWorld liveMesh freshMesh).1.geomDisposed.getD 0 false = true)
      ∧ (((replaceCurrentMesh liveWorld liveMesh freshMesh).1.mats.getD 0
            ⟨none, false⟩).disposed = true)
      ∧ ((replaceCurrentMesh liveWorld liveMesh freshMesh).1.texDisposed
          = liveWorld.texDisposed) :=
  have h := replace_releases_geometry_material_only liveWorld liveMesh freshMesh 0 0
    rfl rfl (by decide) (by decide)
  ⟨rfl, rfl, by decide, by decide, h.1, h.2.1, h.2.2⟩

end Papiweb3D
